import Mathlib

/-!
Shallow embedding of the laserfingers level-migration scripts.

The repository holds five Python scripts that rewrite level JSON
documents in place:
  - convert-levels.py   : legacy-kind unification (sweeper / rotor / segment
                          nested kinds become flat ray / segment records);
  - fix-cycle-times.py  : doubles every non-null cycleSeconds;
  - migrate_levels.py   : endpoint array generalization
                          (endpoint / startEndpoint / endEndpoint keys become
                          an endpoints array);
  - remove-angles.py    : deletes initialAngle from ray lasers;
  - rename-initial-t.py : renames initialT to t, dropping zero values.

JSON dictionaries are embedded as Lean structures whose `Option` fields
record key presence (`none` = key absent).  Where a script treats an
absent key and a JSON `null` value identically (it reads the key with
`.get(...)`, e.g. `cycleSeconds` and `cadence`), a single `none` stands
for both.  Python floats are embedded as `ℚ` for the migration steps,
whose arithmetic is `* 2` and comparison with `0`; the angle arithmetic
of convert-levels.py uses `ℝ` (π, atan2).  In-place mutation of a
dictionary is embedded as a pure function returning the updated value.
Each script's "write the file back" effect is embedded as a `Bool`
component: `true` means the runner wrote the document to disk.
-/

/-- A 2-D coordinate dictionary with keys `x` and `y`. -/
structure Coord where
  x : ℚ
  y : ℚ
  deriving DecidableEq

/-- An endpoint-path dictionary as the migration steps see it: the keys
`points`, `cycleSeconds`, `initialT` and `t`, any of the last three
possibly absent.  `cycleSeconds = none` stands for the key being absent
or holding JSON `null` (every script reads it with `.get`, which does
not distinguish the two). -/
structure Endpoint where
  points : List Coord
  cycleSeconds : Option ℚ
  initialT : Option ℚ
  t : Option ℚ
  deriving DecidableEq

/-- A laser dictionary as the four step scripts see it: the `type` tag
(read with `.get("type")`, hence `Option`) and the keys the steps
inspect or rewrite.  Fields the steps never touch are not modelled. -/
structure Laser where
  type : Option String
  endpoint : Option Endpoint
  endpoints : Option (List Endpoint)
  startEndpoint : Option Endpoint
  endEndpoint : Option Endpoint
  initialAngle : Option ℚ
  rotationSpeed : Option ℚ
  deriving DecidableEq

/-- A button dictionary: only its `endpoint` / `endpoints` keys are ever
read or written (by migrate_levels.py). -/
structure Button where
  endpoint : Option Endpoint
  endpoints : Option (List Endpoint)
  deriving DecidableEq

/-- A level document: optional `lasers` and `buttons` arrays (each script
guards with `if "lasers" in level`). -/
structure Level where
  lasers : Option (List Laser)
  buttons : Option (List Button)
  deriving DecidableEq

namespace FixCycleTimes

/-- fix-cycle-times.py, inner loop body of `fix_laser`:
`if endpoint.get("cycleSeconds") is not None: endpoint["cycleSeconds"] *= 2`. -/
def fix_endpoint (e : Endpoint) : Endpoint :=
  match e.cycleSeconds with
  | none => e
  | some c => { e with cycleSeconds := some (c * 2) }

/-- fix-cycle-times.py `fix_laser`: on a `ray` laser carrying `endpoint`,
double that endpoint's cycleSeconds; on a `segment` laser, do so for
`startEndpoint` and `endEndpoint` when present. -/
def fix_laser (l : Laser) : Laser :=
  if l.type = some "ray" ∧ l.endpoint.isSome then
    { l with endpoint := l.endpoint.map fix_endpoint }
  else if l.type = some "segment" then
    { l with startEndpoint := l.startEndpoint.map fix_endpoint,
             endEndpoint := l.endEndpoint.map fix_endpoint }
  else l

/-- fix-cycle-times.py `fix_level_file`, transformation part: apply
`fix_laser` to every laser when the `lasers` key is present. -/
def fix_level (lv : Level) : Level :=
  { lv with lasers := lv.lasers.map (List.map fix_laser) }

/-- fix-cycle-times.py `fix_level_file`: transforms the document and then
writes it back unconditionally (the script has no already-fixed check).
The `Bool` records that a write happened. -/
def fix_level_file (lv : Level) : Level × Bool :=
  (fix_level lv, true)

end FixCycleTimes

namespace MigrateLevels

/-- migrate_levels.py `migrate_button`: move a bare `endpoint` into a
one-element `endpoints` array, only when `endpoints` is not already
present. -/
def migrate_button (b : Button) : Button :=
  match b.endpoint, b.endpoints with
  | some e, none => { b with endpoints := some [e], endpoint := none }
  | _, _ => b

/-- migrate_levels.py `migrate_laser`: for `sweeper` / `rotor` typed
lasers move `endpoint` into `endpoints`; for `segment` typed lasers move
the `startEndpoint` / `endEndpoint` pair into `endpoints` (start first);
in both cases only when `endpoints` is absent.  Lasers with any other
`type` tag are returned unchanged. -/
def migrate_laser (l : Laser) : Laser :=
  if l.type = some "sweeper" ∨ l.type = some "rotor" then
    match l.endpoint, l.endpoints with
    | some e, none => { l with endpoints := some [e], endpoint := none }
    | _, _ => l
  else if l.type = some "segment" then
    match l.startEndpoint, l.endEndpoint, l.endpoints with
    | some s, some e, none =>
        { l with endpoints := some [s, e], startEndpoint := none, endEndpoint := none }
    | _, _, _ => l
  else l

/-- migrate_levels.py `migrate_level`: migrate all buttons, then all
lasers (when the respective key is present). -/
def migrate_level (lv : Level) : Level :=
  { lv with buttons := lv.buttons.map (List.map migrate_button),
            lasers := lv.lasers.map (List.map migrate_laser) }

/-- migrate_levels.py `migrate_file`, precondition scan: a button with an
`endpoint` key, or a laser with an `endpoint` or `startEndpoint` key,
means migration is needed. -/
def needs_migration (lv : Level) : Bool :=
  (match lv.buttons with
   | some bs => bs.any (fun b => b.endpoint.isSome)
   | none => false)
  || (match lv.lasers with
      | some ls => ls.any (fun l => l.endpoint.isSome || l.startEndpoint.isSome)
      | none => false)

/-- migrate_levels.py `migrate_file`: skip (no write) when
`needs_migration` is false, otherwise migrate and write.  The `Bool`
records whether a write happened. -/
def migrate_file (lv : Level) : Level × Bool :=
  if needs_migration lv then (migrate_level lv, true) else (lv, false)

/-- migrate_levels.py `main`, per-file try/except: a file whose decoding
fails is reported as failed (`false`); any decodable file succeeds, the
transformation itself being total.  A candidate file is embedded as its
decode result. -/
def file_ok : Except String Level → Bool
  | .error _ => false
  | .ok _ => true

/-- migrate_levels.py `main` loop: one success flag per file, in order;
no failure aborts the loop. -/
def batch_results (fs : List (Except String Level)) : List Bool :=
  fs.map file_ok

/-- migrate_levels.py `main`: `error_count` accumulated over the batch. -/
def error_count (fs : List (Except String Level)) : Nat :=
  (batch_results fs).count false

/-- migrate_levels.py `main`: `sys.exit(1)` when `error_count > 0`, else
fall off the end of `main` (exit status 0). -/
def exit_code (fs : List (Except String Level)) : Nat :=
  if error_count fs > 0 then 1 else 0

end MigrateLevels

namespace RemoveAngles

/-- remove-angles.py `process_laser`: delete `initialAngle` from lasers
whose `type` is `ray`. -/
def process_laser (l : Laser) : Laser :=
  if l.type = some "ray" ∧ l.initialAngle.isSome then
    { l with initialAngle := none }
  else l

/-- remove-angles.py `process_level_file`, transformation part: apply
`process_laser` to every laser when `lasers` is present. -/
def process_level (lv : Level) : Level :=
  { lv with lasers := lv.lasers.map (List.map process_laser) }

/-- remove-angles.py `process_level_file`: transforms and then writes the
document back unconditionally. -/
def process_level_file (lv : Level) : Level × Bool :=
  (process_level lv, true)

end RemoveAngles

namespace RenameInitialT

/-- rename-initial-t.py `process_endpoint`: delete `initialT`; re-add its
value under `t` only when it is non-zero (a pre-existing `t` key is
overwritten in that case, and kept when the deleted value is zero). -/
def process_endpoint (e : Endpoint) : Endpoint :=
  match e.initialT with
  | none => e
  | some v => { e with initialT := none, t := if v = 0 then e.t else some v }

/-- rename-initial-t.py `process_laser`: rename inside `endpoint` for
`ray` lasers, and inside `startEndpoint` / `endEndpoint` for `segment`
lasers.  The `endpoints` array is never inspected. -/
def process_laser (l : Laser) : Laser :=
  if l.type = some "ray" ∧ l.endpoint.isSome then
    { l with endpoint := l.endpoint.map process_endpoint }
  else if l.type = some "segment" then
    { l with startEndpoint := l.startEndpoint.map process_endpoint,
             endEndpoint := l.endEndpoint.map process_endpoint }
  else l

/-- rename-initial-t.py `process_level_file`, transformation part. -/
def process_level (lv : Level) : Level :=
  { lv with lasers := lv.lasers.map (List.map process_laser) }

/-- rename-initial-t.py `process_level_file`: transforms and then writes
the document back unconditionally. -/
def process_level_file (lv : Level) : Level × Bool :=
  (process_level lv, true)

end RenameInitialT

/-- An opaque JSON scalar, used for the legacy-laser fields the converter
copies without inspecting (`id`, `color`, `thickness`, `cadence`) and
for unrecognized extra fields.  The converter never looks inside these
values, so scalars suffice for the embedding. -/
inductive Value where
  | null
  | bool (b : Bool)
  | num (q : ℚ)
  | str (s : String)
  deriving DecidableEq

namespace ConvertLevels

/-- The `kind["sweeper"]` payload: `start`, `end`, `sweepSeconds`. -/
structure SweeperData where
  start : Coord
  stop : Coord
  sweepSeconds : ℚ
  deriving DecidableEq

/-- The `kind["rotor"]` payload. -/
structure RotorData where
  center : Coord
  speedDegreesPerSecond : ℚ
  initialAngleDegrees : ℚ
  deriving DecidableEq

/-- The `kind["segment"]` payload: `start`, `end`. -/
structure SegmentData where
  start : Coord
  stop : Coord
  deriving DecidableEq

/-- The nested `kind` dictionary of a legacy laser: a mandatory `type`
tag plus the per-kind payload keys, each possibly absent (a missing
payload would raise `KeyError` in the script). -/
structure KindRec where
  type : String
  sweeper : Option SweeperData
  rotor : Option RotorData
  segment : Option SegmentData
  deriving DecidableEq

/-- A legacy laser record.  `enabled = none` means the key is absent
(the script defaults it with `.get("enabled", True)`); `cadence = none`
stands for absent-or-null (read with `.get("cadence")`, re-added only
when not `None`).  `kind = none` models a record with no nested `kind`
key — notably a laser the script itself produced, re-read from an
already-converted file: there the mandatory lookup `old_laser["kind"]`
raises `KeyError("kind")`.  `extra` holds every other key of the
dictionary, which `convert_laser` never reads. -/
structure OldLaser where
  id : Value
  color : Value
  thickness : Value
  enabled : Option Bool
  cadence : Option Value
  kind : Option KindRec
  extra : List (String × Value)
  deriving DecidableEq

/-- The exceptions `convert_laser` can raise: a `KeyError` for a missing
payload key, or the `ValueError` classification error for an unknown
kind tag. -/
inductive ConvErr where
  | keyError (key : String)
  | valueError (msg : String)
  deriving DecidableEq

/-- Python's `math.atan2` on real arguments (signed floating-point zeros
have no counterpart in `ℝ`; `atan2 0 0 = 0` as in Python). -/
noncomputable def atan2 (y x : ℝ) : ℝ :=
  if 0 < x then Real.arctan (y / x)
  else if x < 0 then
    (if 0 ≤ y then Real.arctan (y / x) + Real.pi
     else Real.arctan (y / x) - Real.pi)
  else if 0 < y then Real.pi / 2
  else if y < 0 then -(Real.pi / 2)
  else 0

/-- The dictionary returned by a kind converter and splatted into the
new laser via `**new_kind`: either the ray fields (`type="ray"`,
`endpoint`, `initialAngle`, `rotationSpeed`) or the segment fields
(`type="segment"`, `startEndpoint`, `endEndpoint`). -/
inductive NewKind where
  | ray (endpoint : Endpoint) (initialAngle : ℝ) (rotationSpeed : ℝ)
  | segment (startEndpoint : Endpoint) (endEndpoint : Endpoint)

/-- convert-levels.py `convert_sweeper_to_ray`: the endpoint path moves
between `start` and `end` with `cycleSeconds = sweepSeconds * 2` and
`initialT = 0.0`; `initialAngle` is the path direction rotated by +90
degrees, `rotationSpeed` is `0.0`. -/
noncomputable def convert_sweeper_to_ray (d : SweeperData) : NewKind :=
  let dx : ℚ := d.stop.x - d.start.x
  let dy : ℚ := d.stop.y - d.start.y
  NewKind.ray
    { points := [d.start, d.stop], cycleSeconds := some (d.sweepSeconds * 2),
      initialT := some 0, t := none }
    (atan2 (dy : ℝ) (dx : ℝ) + Real.pi / 2)
    0

/-- convert-levels.py `convert_rotor_to_ray`: a stationary one-point
path (`cycleSeconds` null, `initialT = 0.0`); the stored degrees are
converted to radians by multiplying by π and dividing by 180. -/
noncomputable def convert_rotor_to_ray (d : RotorData) : NewKind :=
  NewKind.ray
    { points := [d.center], cycleSeconds := none, initialT := some 0, t := none }
    ((d.initialAngleDegrees : ℝ) * Real.pi / 180)
    ((d.speedDegreesPerSecond : ℝ) * Real.pi / 180)

/-- convert-levels.py `convert_segment_to_segment`: two stationary
one-point paths. -/
def convert_segment_to_segment (d : SegmentData) : NewKind :=
  NewKind.segment
    { points := [d.start], cycleSeconds := none, initialT := some 0, t := none }
    { points := [d.stop], cycleSeconds := none, initialT := some 0, t := none }

/-- A converted laser: the fields `convert_laser` builds explicitly
(`id`, `color`, `thickness`, `enabled`) plus the splatted kind fields
and, when present, `cadence`.  No other field exists on the new record. -/
structure NewLaser where
  id : Value
  color : Value
  thickness : Value
  enabled : Bool
  kind : NewKind
  cadence : Option Value

/-- convert-levels.py `convert_laser`, kind dispatch on `kind["type"]`:
the computation of `new_kind`.  An unknown tag raises
`ValueError(f"Unknown laser kind: {kind_type}")`, a missing payload key
raises `KeyError`. -/
noncomputable def convert_kind (k : KindRec) : Except ConvErr NewKind :=
  if k.type = "sweeper" then
    match k.sweeper with
    | some d => Except.ok (convert_sweeper_to_ray d)
    | none => Except.error (ConvErr.keyError "sweeper")
  else if k.type = "rotor" then
    match k.rotor with
    | some d => Except.ok (convert_rotor_to_ray d)
    | none => Except.error (ConvErr.keyError "rotor")
  else if k.type = "segment" then
    match k.segment with
    | some d => Except.ok (convert_segment_to_segment d)
    | none => Except.error (ConvErr.keyError "segment")
  else
    Except.error (ConvErr.valueError ("Unknown laser kind: " ++ k.type))

/-- convert-levels.py `convert_laser`: build the new laser from `id`,
`color`, `thickness`, `enabled` (defaulted to true), the splatted
`new_kind` fields, and `cadence` when not None.  No other field of the
old record is read.  The mandatory lookup `old_laser["kind"]` raises
`KeyError("kind")` when the key is absent — which is the case for every
laser in a file the script has already converted. -/
noncomputable def convert_laser (o : OldLaser) : Except ConvErr NewLaser :=
  match o.kind with
  | none => Except.error (ConvErr.keyError "kind")
  | some k =>
    (convert_kind k).map fun nk =>
      { id := o.id, color := o.color, thickness := o.thickness,
        enabled := o.enabled.getD true, kind := nk, cadence := o.cadence }

/-- A legacy level document: the optional `lasers` array plus all other
keys, which the converter copies through untouched. -/
structure OldLevel where
  lasers : Option (List OldLaser)
  extra : List (String × Value)
  deriving DecidableEq

/-- A converted level document. -/
structure NewLevel where
  lasers : Option (List NewLaser)
  extra : List (String × Value)

/-- The list comprehension
`[convert_laser(laser) for laser in level["lasers"]]`: lasers are
converted left to right and the first exception aborts the whole
comprehension. -/
noncomputable def convert_lasers : List OldLaser → Except ConvErr (List NewLaser)
  | [] => Except.ok []
  | o :: os =>
    match convert_laser o with
    | Except.error e => Except.error e
    | Except.ok n =>
      match convert_lasers os with
      | Except.error e => Except.error e
      | Except.ok ns => Except.ok (n :: ns)

/-- convert-levels.py `convert_level_file`, transformation part: convert
all lasers when `lasers` is present; an exception from any laser fails
the whole file. -/
noncomputable def convert_level_file (lv : OldLevel) : Except ConvErr NewLevel :=
  match lv.lasers with
  | none => Except.ok { lasers := none, extra := lv.extra }
  | some ls =>
    match convert_lasers ls with
    | Except.error e => Except.error e
    | Except.ok ls2 => Except.ok { lasers := some ls2, extra := lv.extra }

/-- convert-levels.py `convert_level_file`, including the write: the
file is opened for writing only after the transformation succeeded, so
an exception leaves the on-disk bytes untouched (`false` = not
written). -/
noncomputable def convert_file_run (lv : OldLevel) : Except ConvErr NewLevel × Bool :=
  match convert_level_file lv with
  | Except.ok out => (Except.ok out, true)
  | Except.error e => (Except.error e, false)

/-- convert-levels.py `main` loop: each file is converted in turn; the
first exception prints the error and calls `sys.exit(1)`, so the
remaining files are never processed.  Returns the successfully written
documents in order and the process exit status. -/
noncomputable def mainLoop : List OldLevel → List NewLevel × Nat
  | [] => ([], 0)
  | lv :: rest =>
    match convert_level_file lv with
    | Except.error _ => ([], 1)
    | Except.ok out =>
      let r := mainLoop rest
      (out :: r.1, r.2)

/-- The kind tags `convert_laser` recognizes. -/
def KindRec.known (k : KindRec) : Prop :=
  k.type = "sweeper" ∨ k.type = "rotor" ∨ k.type = "segment"

instance (k : KindRec) : Decidable k.known := by
  unfold KindRec.known; infer_instance

/-- A kind dictionary is well formed when the payload key matching its
tag is present (otherwise the script would raise `KeyError`, not the
classification error). -/
def KindRec.wfPayload (k : KindRec) : Prop :=
  (k.type = "sweeper" → k.sweeper.isSome) ∧
  (k.type = "rotor" → k.rotor.isSome) ∧
  (k.type = "segment" → k.segment.isSome)

instance (k : KindRec) : Decidable k.wfPayload := by
  unfold KindRec.wfPayload; infer_instance

/-- A legacy laser is well formed when it carries a nested `kind` key
whose matching payload key is present (otherwise the script would raise
`KeyError`, not the classification error). -/
def OldLaser.wf (o : OldLaser) : Prop :=
  match o.kind with
  | none => False
  | some k => k.wfPayload

instance (o : OldLaser) : Decidable o.wf := by
  unfold OldLaser.wf
  rcases h : o.kind with _ | k <;> simp only [h] <;> infer_instance

end ConvertLevels

/-- A concrete document for the C1 counterexample: one already-corrected
ray laser whose endpoint has cycleSeconds 6. -/
def c1Level : Level :=
  { lasers := some [{ type := some "ray",
                      endpoint := some { points := [⟨0, 0⟩, ⟨10, 0⟩], cycleSeconds := some 6,
                                         initialT := none, t := none },
                      endpoints := none, startEndpoint := none, endEndpoint := none,
                      initialAngle := none, rotationSpeed := none }],
    buttons := none }

/-- A concrete document for the C3 counterexample: a segment laser still
in startEndpoint / endEndpoint form whose start endpoint carries a
non-zero initialT. -/
def c3Level : Level :=
  { lasers := some [{ type := some "segment",
                      endpoint := none, endpoints := none,
                      startEndpoint := some { points := [⟨0, 0⟩], cycleSeconds := none,
                                              initialT := some 3, t := none },
                      endEndpoint := some { points := [⟨1, 1⟩], cycleSeconds := none,
                                            initialT := none, t := none },
                      initialAngle := none, rotationSpeed := none }],
    buttons := none }

/-- A concrete document for the C4 counterexample: a ray-typed laser
still storing a bare endpoint key. -/
def c4Level : Level :=
  { lasers := some [{ type := some "ray",
                      endpoint := some { points := [⟨3, 4⟩], cycleSeconds := none,
                                         initialT := none, t := none },
                      endpoints := none, startEndpoint := none, endEndpoint := none,
                      initialAngle := none, rotationSpeed := none }],
    buttons := none }

/-- A concrete document for the C5 counterexample: a single stationary
ray laser (cycleSeconds absent), which the cycle-time step leaves
unchanged. -/
def c5Level : Level :=
  { lasers := some [{ type := some "ray",
                      endpoint := some { points := [⟨7, 7⟩], cycleSeconds := none,
                                         initialT := none, t := none },
                      endpoints := none, startEndpoint := none, endEndpoint := none,
                      initialAngle := none, rotationSpeed := none }],
    buttons := none }

/-- A concrete endpoint path for the C9 counterexample: initialT = 0.0
coexisting with a pre-existing t key. -/
def c9Endpoint : Endpoint :=
  { points := [⟨0, 0⟩], cycleSeconds := none, initialT := some 0, t := some 5 }

/-- A legacy laser with the unrecognized kind tag "beam". -/
def c6Laser : ConvertLevels.OldLaser :=
  { id := Value.str "l0", color := Value.str "red", thickness := Value.num 2,
    enabled := none, cadence := none,
    kind := some { type := "beam", sweeper := none, rotor := none, segment := none },
    extra := [] }

/-- A level document holding the "beam" laser. -/
def c6Level : ConvertLevels.OldLevel :=
  { lasers := some [c6Laser], extra := [] }

/-- A legacy segment laser carrying an unrecognized extra field. -/
def c10Laser : ConvertLevels.OldLaser :=
  { id := Value.str "l1", color := Value.str "red", thickness := Value.num 2,
    enabled := none, cadence := some (Value.str "blink"),
    kind := some { type := "segment", sweeper := none, rotor := none,
                   segment := some { start := ⟨0, 0⟩, stop := ⟨1, 1⟩ } },
    extra := [("editorNote", Value.str "temp")] }

/-- The record convert_laser produces for `c10Laser`. -/
noncomputable def c10NewLaser : ConvertLevels.NewLaser :=
  { id := Value.str "l1", color := Value.str "red", thickness := Value.num 2,
    enabled := true,
    kind := ConvertLevels.convert_segment_to_segment { start := ⟨0, 0⟩, stop := ⟨1, 1⟩ },
    cadence := some (Value.str "blink") }

/-- The "beam"-tagged legacy laser used by the C2 convert-side batch. -/
def c2BadLaser : ConvertLevels.OldLaser :=
  { id := Value.str "b0", color := Value.str "blue", thickness := Value.num 1,
    enabled := none, cadence := none,
    kind := some { type := "beam", sweeper := none, rotor := none, segment := none },
    extra := [] }

/-- A document the converter rejects (unknown kind tag "beam"). -/
def c2BadLevel : ConvertLevels.OldLevel :=
  { lasers := some [c2BadLaser], extra := [] }

/-- A document the converter accepts untouched (no lasers key). -/
def c2GoodLevel : ConvertLevels.OldLevel :=
  { lasers := none, extra := [] }

/-- A legacy document for the C1 unification counterexample: one
segment-kind laser. -/
def c1LegacyLevel : ConvertLevels.OldLevel :=
  { lasers := some [{ id := Value.str "s0", color := Value.str "green",
                      thickness := Value.num 1, enabled := none, cadence := none,
                      kind := some { type := "segment", sweeper := none, rotor := none,
                                     segment := some { start := ⟨0, 0⟩, stop := ⟨4, 0⟩ } },
                      extra := [] }],
    extra := [] }

/-- The document convert-levels.py writes for `c1LegacyLevel`: the laser
is now a flat segment record with no nested `kind` key. -/
noncomputable def c1ConvertedLevel : ConvertLevels.NewLevel :=
  { lasers := some [{ id := Value.str "s0", color := Value.str "green",
                      thickness := Value.num 1, enabled := true,
                      kind := ConvertLevels.convert_segment_to_segment
                        { start := ⟨0, 0⟩, stop := ⟨4, 0⟩ },
                      cadence := none }],
    extra := [] }

/-- `c1ConvertedLevel` as convert-levels.py re-reads it from disk on a
second run: the laser dictionary still has its id, color and thickness
keys, but no nested `kind` key (`kind := none`); the flat converted
fields (type, startEndpoint, endEndpoint, enabled) re-read as
unrecognized extra keys, which `convert_laser` never inspects (they are
elided here — the conversion result is invariant under `extra`). -/
def c1RereadLevel : ConvertLevels.OldLevel :=
  { lasers := some [{ id := Value.str "s0", color := Value.str "green",
                      thickness := Value.num 1, enabled := some true, cadence := none,
                      kind := none, extra := [] }],
    extra := [] }

theorem rename_endpoint_idem (e : Endpoint) :
    RenameInitialT.process_endpoint (RenameInitialT.process_endpoint e) =
      RenameInitialT.process_endpoint e := by
  rcases e with ⟨p, c, it, t⟩
  rcases it with _ | v
  · rfl
  · by_cases hv : v = 0 <;> simp [RenameInitialT.process_endpoint, hv]

theorem rename_laser_idem (l : Laser) :
    RenameInitialT.process_laser (RenameInitialT.process_laser l) =
      RenameInitialT.process_laser l := by
  rcases l with ⟨ty, ep, eps, se, ee, ia, rs⟩
  rcases ep with _ | e <;> rcases se with _ | s <;> rcases ee with _ | f <;>
    simp only [RenameInitialT.process_laser] <;> split_ifs <;>
    simp_all [rename_endpoint_idem]

theorem rename_level_idem (lv : Level) :
    RenameInitialT.process_level (RenameInitialT.process_level lv) =
      RenameInitialT.process_level lv := by
  rcases lv with ⟨ls, bs⟩
  rcases ls with _ | l <;>
    simp [RenameInitialT.process_level, List.map_map, Function.comp_def, rename_laser_idem]

theorem remove_laser_idem (l : Laser) :
    RemoveAngles.process_laser (RemoveAngles.process_laser l) =
      RemoveAngles.process_laser l := by
  rcases l with ⟨ty, ep, eps, se, ee, ia, rs⟩
  simp only [RemoveAngles.process_laser]
  split_ifs <;> simp_all

theorem remove_level_idem (lv : Level) :
    RemoveAngles.process_level (RemoveAngles.process_level lv) =
      RemoveAngles.process_level lv := by
  rcases lv with ⟨ls, bs⟩
  rcases ls with _ | l <;>
    simp [RemoveAngles.process_level, List.map_map, Function.comp_def, remove_laser_idem]

theorem migrate_button_idem (b : Button) :
    MigrateLevels.migrate_button (MigrateLevels.migrate_button b) =
      MigrateLevels.migrate_button b := by
  rcases b with ⟨ep, eps⟩
  rcases ep with _ | e <;> rcases eps with _ | es <;> simp [MigrateLevels.migrate_button]

theorem migrate_laser_idem (l : Laser) :
    MigrateLevels.migrate_laser (MigrateLevels.migrate_laser l) =
      MigrateLevels.migrate_laser l := by
  rcases l with ⟨ty, ep, eps, se, ee, ia, rs⟩
  rcases ep with _ | e <;> rcases eps with _ | es <;> rcases se with _ | s <;>
    rcases ee with _ | f <;>
    simp only [MigrateLevels.migrate_laser] <;> split_ifs <;> simp_all

theorem migrate_level_idem (lv : Level) :
    MigrateLevels.migrate_level (MigrateLevels.migrate_level lv) =
      MigrateLevels.migrate_level lv := by
  rcases lv with ⟨ls, bs⟩
  rcases ls with _ | l <;> rcases bs with _ | b <;>
    simp [MigrateLevels.migrate_level, List.map_map, Function.comp_def,
      migrate_laser_idem, migrate_button_idem]

/-- C1 (amended): of the five migration steps, exactly three are
idempotent — endpoint-array generalization, angle removal and
phase-field rename: applying any of them twice to a level document
yields the same document as applying it once.  The cycle-time
correction step is not idempotent: it multiplies every non-null
cycleSeconds by 2 on each run (counterexample).  The legacy-kind
unification step is not idempotent either: its output lasers carry no
nested kind key, so a second run on any document whose (first) laser
lacks that key — in particular on the step's own re-read output —
raises KeyError("kind") instead of leaving the document unchanged,
which the fourth conjunct states for every such document. -/
theorem claim_c1_idempotent_steps :
    (∀ lv : Level,
      MigrateLevels.migrate_level (MigrateLevels.migrate_level lv) =
        MigrateLevels.migrate_level lv) ∧
    (∀ lv : Level,
      RemoveAngles.process_level (RemoveAngles.process_level lv) =
        RemoveAngles.process_level lv) ∧
    (∀ lv : Level,
      RenameInitialT.process_level (RenameInitialT.process_level lv) =
        RenameInitialT.process_level lv) ∧
    (∀ (lv : ConvertLevels.OldLevel) (o : ConvertLevels.OldLaser)
        (os : List ConvertLevels.OldLaser),
      lv.lasers = some (o :: os) → o.kind = none →
      ConvertLevels.convert_level_file lv =
        Except.error (ConvertLevels.ConvErr.keyError "kind")) := by
  refine ⟨migrate_level_idem, remove_level_idem, rename_level_idem, ?_⟩
  intro lv o os hls hko
  simp [ConvertLevels.convert_level_file, hls, ConvertLevels.convert_lasers,
    ConvertLevels.convert_laser, hko]

/-- C1 (witness): the amended theorem at concrete documents — the three
idempotent steps at a concrete level, and the unification failure at
the concrete re-read of a converted document. -/
theorem claim_c1_idempotent_steps_witness :
    MigrateLevels.migrate_level (MigrateLevels.migrate_level c1Level) =
      MigrateLevels.migrate_level c1Level ∧
    RemoveAngles.process_level (RemoveAngles.process_level c1Level) =
      RemoveAngles.process_level c1Level ∧
    RenameInitialT.process_level (RenameInitialT.process_level c1Level) =
      RenameInitialT.process_level c1Level ∧
    ConvertLevels.convert_level_file c1RereadLevel =
      Except.error (ConvertLevels.ConvErr.keyError "kind") :=
  ⟨claim_c1_idempotent_steps.1 c1Level,
   claim_c1_idempotent_steps.2.1 c1Level,
   claim_c1_idempotent_steps.2.2.1 c1Level,
   claim_c1_idempotent_steps.2.2.2 c1RereadLevel _ [] rfl rfl⟩

/-- C1 (counterexample): two steps refute the universal idempotence
claim.  The cycle-time correction applied twice to a document it has
already corrected doubles cycleSeconds again: a ray laser with
cycleSeconds 6 ends at 12 after one run and at 24 after two, so
S(S(D)) differs from S(D).  The legacy-kind unification fails too: it
converts `c1LegacyLevel` successfully, writing `c1ConvertedLevel`
(whose laser has no nested kind key), but run again on the re-read
output `c1RereadLevel` it raises KeyError("kind") instead of leaving
the document unchanged. -/
theorem claim_c1_counterexample :
    (FixCycleTimes.fix_level (FixCycleTimes.fix_level c1Level) ≠
      FixCycleTimes.fix_level c1Level ∧
    ((FixCycleTimes.fix_level c1Level).lasers.getD []).map
        (fun l => l.endpoint.map Endpoint.cycleSeconds) = [some (some 12)] ∧
    ((FixCycleTimes.fix_level (FixCycleTimes.fix_level c1Level)).lasers.getD []).map
        (fun l => l.endpoint.map Endpoint.cycleSeconds) = [some (some 24)]) ∧
    ConvertLevels.convert_file_run c1LegacyLevel = (Except.ok c1ConvertedLevel, true) ∧
    ConvertLevels.convert_level_file c1RereadLevel =
      Except.error (ConvertLevels.ConvErr.keyError "kind") := by
  refine ⟨?_, ?_, ?_⟩
  · norm_num [c1Level, FixCycleTimes.fix_level, FixCycleTimes.fix_laser,
      FixCycleTimes.fix_endpoint]
  · rfl
  · rfl

theorem remove_laser_of_not_ray (l : Laser) (h : l.type ≠ some "ray") :
    RemoveAngles.process_laser l = l := by
  simp [RemoveAngles.process_laser, h]

theorem remove_laser_type (l : Laser) :
    (RemoveAngles.process_laser l).type = l.type := by
  simp only [RemoveAngles.process_laser]
  split_ifs <;> rfl

theorem migrate_laser_type (l : Laser) :
    (MigrateLevels.migrate_laser l).type = l.type := by
  rcases l with ⟨ty, ep, eps, se, ee, ia, rs⟩
  simp only [MigrateLevels.migrate_laser]
  split_ifs <;>
    first
    | rfl
    | (rcases ep with _ | e <;> rcases eps with _ | es <;> rfl)
    | (rcases se with _ | s <;> rcases ee with _ | f <;> rcases eps with _ | es <;> rfl)

theorem migrate_laser_of_ray (l : Laser) (h : l.type = some "ray") :
    MigrateLevels.migrate_laser l = l := by
  simp [MigrateLevels.migrate_laser, h]

theorem rename_laser_type (l : Laser) :
    (RenameInitialT.process_laser l).type = l.type := by
  simp only [RenameInitialT.process_laser]
  split_ifs <;> rfl

theorem remove_rename_laser_comm (l : Laser) :
    RemoveAngles.process_laser (RenameInitialT.process_laser l) =
      RenameInitialT.process_laser (RemoveAngles.process_laser l) := by
  rcases l with ⟨ty, ep, eps, se, ee, ia, rs⟩
  by_cases hr : ty = some "ray"
  · subst hr
    rcases ep with _ | e <;> rcases ia with _ | a <;>
      simp [RemoveAngles.process_laser, RenameInitialT.process_laser]
  · rw [remove_laser_of_not_ray _ (by rw [rename_laser_type]; exact hr),
      remove_laser_of_not_ray _ hr]

theorem remove_migrate_laser_comm (l : Laser) :
    RemoveAngles.process_laser (MigrateLevels.migrate_laser l) =
      MigrateLevels.migrate_laser (RemoveAngles.process_laser l) := by
  by_cases hr : l.type = some "ray"
  · rw [migrate_laser_of_ray l hr,
      migrate_laser_of_ray (RemoveAngles.process_laser l)
        (by rw [remove_laser_type]; exact hr)]
  · rw [remove_laser_of_not_ray l hr,
      remove_laser_of_not_ray (MigrateLevels.migrate_laser l)
        (by rw [migrate_laser_type]; exact hr)]

theorem remove_rename_level_comm (lv : Level) :
    RemoveAngles.process_level (RenameInitialT.process_level lv) =
      RenameInitialT.process_level (RemoveAngles.process_level lv) := by
  rcases lv with ⟨ls, bs⟩
  rcases ls with _ | l <;>
    simp [RemoveAngles.process_level, RenameInitialT.process_level, List.map_map,
      Function.comp_def, remove_rename_laser_comm]

theorem remove_migrate_level_comm (lv : Level) :
    RemoveAngles.process_level (MigrateLevels.migrate_level lv) =
      MigrateLevels.migrate_level (RemoveAngles.process_level lv) := by
  rcases lv with ⟨ls, bs⟩
  rcases ls with _ | l <;> rcases bs with _ | b <;>
    simp [RemoveAngles.process_level, MigrateLevels.migrate_level, List.map_map,
      Function.comp_def, remove_migrate_laser_comm]

/-- C3 (amended): the angle-removal step commutes with the phase-field
rename and with the endpoint-array generalization, since it touches only
the laser-level initialAngle key.  The phase-field rename does NOT
commute with the array generalization: rename only inspects the
endpoint / startEndpoint / endEndpoint keys, never the endpoints array,
so generalizing first hides a pending initialT from the rename (see the
counterexample). -/
theorem claim_c3_commutation :
    (∀ lv : Level,
      RemoveAngles.process_level (RenameInitialT.process_level lv) =
        RenameInitialT.process_level (RemoveAngles.process_level lv)) ∧
    (∀ lv : Level,
      RemoveAngles.process_level (MigrateLevels.migrate_level lv) =
        MigrateLevels.migrate_level (RemoveAngles.process_level lv)) :=
  ⟨remove_rename_level_comm, remove_migrate_level_comm⟩

/-- C3 (counterexample): on a segment laser whose startEndpoint carries a
non-zero initialT, renaming before the array generalization yields
endpoints whose first path has t set, while generalizing first leaves
initialT buried inside the endpoints array — the two orders give
different documents, so the phase-field rename and the array
generalization do not commute. -/
theorem claim_c3_counterexample :
    MigrateLevels.migrate_level (RenameInitialT.process_level c3Level) ≠
      RenameInitialT.process_level (MigrateLevels.migrate_level c3Level) := by
  decide

/-- C4 (amended): the endpoint-array generalization moves endpoints into
an endpoints array only for lasers whose type tag it recognizes: a
segment-typed laser with startEndpoint = A, endEndpoint = B and no
pre-existing endpoints key ends with endpoints = [A, B] (start first)
and both old keys absent; a sweeper- or rotor-typed laser, and any
button, with a bare endpoint key and no endpoints key ends with
endpoints = [that endpoint] and the old key absent; a document already
in array form is reported as needing no migration and is returned
unwritten and unchanged.  (A laser with any other type tag — e.g. "ray"
— keeps its old-style keys, see the counterexample.) -/
theorem claim_c4_array_generalization :
    (∀ (l : Laser) (a b : Endpoint), l.type = some "segment" →
      l.startEndpoint = some a → l.endEndpoint = some b → l.endpoints = none →
      MigrateLevels.migrate_laser l =
        { l with endpoints := some [a, b], startEndpoint := none, endEndpoint := none }) ∧
    (∀ (l : Laser) (e : Endpoint),
      (l.type = some "sweeper" ∨ l.type = some "rotor") →
      l.endpoint = some e → l.endpoints = none →
      MigrateLevels.migrate_laser l =
        { l with endpoints := some [e], endpoint := none }) ∧
    (∀ (b : Button) (e : Endpoint), b.endpoint = some e → b.endpoints = none →
      MigrateLevels.migrate_button b =
        { b with endpoints := some [e], endpoint := none }) ∧
    (∀ lv : Level, MigrateLevels.needs_migration lv = false →
      MigrateLevels.migrate_file lv = (lv, false)) := by
  refine ⟨?_, ?_, ?_, ?_⟩
  · intro l a b hty hs he heps
    simp [MigrateLevels.migrate_laser, hty, hs, he, heps]
  · intro l e hty hep heps
    rcases hty with h | h <;> simp [MigrateLevels.migrate_laser, h, hep, heps]
  · intro b e hep heps
    simp [MigrateLevels.migrate_button, hep, heps]
  · intro lv h
    simp [MigrateLevels.migrate_file, h]

/-- C4 (witness): the amended theorem applied to a concrete segment
laser, a concrete rotor laser, a concrete button, and a concrete
already-migrated document. -/
theorem claim_c4_array_generalization_witness :
    (MigrateLevels.migrate_laser
        { type := some "segment", endpoint := none, endpoints := none,
          startEndpoint := some { points := [⟨0, 0⟩], cycleSeconds := none,
                                  initialT := none, t := none },
          endEndpoint := some { points := [⟨2, 0⟩], cycleSeconds := none,
                                initialT := none, t := none },
          initialAngle := none, rotationSpeed := none } =
      { type := some "segment", endpoint := none,
        endpoints := some [{ points := [⟨0, 0⟩], cycleSeconds := none,
                             initialT := none, t := none },
                           { points := [⟨2, 0⟩], cycleSeconds := none,
                             initialT := none, t := none }],
        startEndpoint := none, endEndpoint := none,
        initialAngle := none, rotationSpeed := none }) ∧
    (MigrateLevels.migrate_laser
        { type := some "rotor",
          endpoint := some { points := [⟨5, 5⟩], cycleSeconds := none,
                             initialT := none, t := none },
          endpoints := none, startEndpoint := none, endEndpoint := none,
          initialAngle := none, rotationSpeed := none } =
      { type := some "rotor", endpoint := none,
        endpoints := some [{ points := [⟨5, 5⟩], cycleSeconds := none,
                             initialT := none, t := none }],
        startEndpoint := none, endEndpoint := none,
        initialAngle := none, rotationSpeed := none }) ∧
    (MigrateLevels.migrate_button
        { endpoint := some { points := [⟨1, 2⟩], cycleSeconds := none,
                             initialT := none, t := none },
          endpoints := none } =
      { endpoint := none,
        endpoints := some [{ points := [⟨1, 2⟩], cycleSeconds := none,
                             initialT := none, t := none }] }) ∧
    MigrateLevels.migrate_file { lasers := none, buttons := none } =
      ({ lasers := none, buttons := none }, false) :=
  ⟨claim_c4_array_generalization.1 _ _ _ rfl rfl rfl rfl,
   claim_c4_array_generalization.2.1 _ _ (Or.inr rfl) rfl rfl,
   claim_c4_array_generalization.2.2.1 _ _ rfl rfl,
   claim_c4_array_generalization.2.2.2 _ rfl⟩

/-- C4 (counterexample): on a laser typed "ray" that stores a bare
endpoint key, the array-generalization step changes nothing (its type
dispatch only knows sweeper / rotor / segment), yet migrate_file still
judges the document as needing migration and writes it; afterwards the
laser still exposes a bare endpoint and no endpoints array, refuting
"every laser exposes its endpoint(s) exclusively via an endpoints
array". -/
theorem claim_c4_counterexample :
    MigrateLevels.migrate_level c4Level = c4Level ∧
    MigrateLevels.migrate_file c4Level = (c4Level, true) ∧
    ((MigrateLevels.migrate_level c4Level).lasers.getD []).map
        (fun l => (l.endpoint.isSome, l.endpoints.isSome)) = [(true, false)] := by
  decide

/-- C5 (amended): only the endpoint-array runner (migrate_levels.py)
skips writing: when no button or laser carries an old-style endpoint
key, the document is reported as already migrated and is not written.
The cycle-time, angle-removal and phase-rename runners write every
document back unconditionally, changed or not. -/
theorem claim_c5_unchanged_writes :
    (∀ lv : Level, MigrateLevels.needs_migration lv = false →
      MigrateLevels.migrate_file lv = (lv, false)) ∧
    (∀ lv : Level, (FixCycleTimes.fix_level_file lv).2 = true) ∧
    (∀ lv : Level, (RemoveAngles.process_level_file lv).2 = true) ∧
    (∀ lv : Level, (RenameInitialT.process_level_file lv).2 = true) := by
  refine ⟨?_, fun _ => rfl, fun _ => rfl, fun _ => rfl⟩
  intro lv h
  simp [MigrateLevels.migrate_file, h]

/-- C5 (witness): the amended theorem at concrete documents. -/
theorem claim_c5_unchanged_writes_witness :
    MigrateLevels.migrate_file { lasers := some [], buttons := some [] } =
      ({ lasers := some [], buttons := some [] }, false) ∧
    (FixCycleTimes.fix_level_file { lasers := none, buttons := none }).2 = true ∧
    (RemoveAngles.process_level_file { lasers := none, buttons := none }).2 = true ∧
    (RenameInitialT.process_level_file { lasers := none, buttons := none }).2 = true :=
  ⟨claim_c5_unchanged_writes.1 _ rfl,
   claim_c5_unchanged_writes.2.1 _,
   claim_c5_unchanged_writes.2.2.1 _,
   claim_c5_unchanged_writes.2.2.2 _⟩

/-- C5 (counterexample): the cycle-time runner writes a document that
its step left byte-for-byte unchanged — fix_level is the identity on
this document, yet fix_level_file reports a write. -/
theorem claim_c5_counterexample :
    FixCycleTimes.fix_level c5Level = c5Level ∧
    FixCycleTimes.fix_level_file c5Level = (c5Level, true) := by
  decide

/-- C9 (amended): for every endpoint path processed by the phase-field
rename: if it carries initialT = 0.0, the result has initialT absent and
its t key exactly as before (in particular, neither key present when no
t key pre-existed); if it carries initialT with a non-zero value v, the
result has initialT absent and t = v; a path without initialT is left
unchanged.  (The original claim fails only when a t key already
coexists with initialT = 0.0 — the pre-existing t survives, see the
counterexample.) -/
theorem claim_c9_phase_sparsity :
    (∀ e : Endpoint, e.initialT = some 0 →
      (RenameInitialT.process_endpoint e).initialT = none ∧
        (RenameInitialT.process_endpoint e).t = e.t) ∧
    (∀ (e : Endpoint) (v : ℚ), e.initialT = some v → v ≠ 0 →
      (RenameInitialT.process_endpoint e).initialT = none ∧
        (RenameInitialT.process_endpoint e).t = some v) ∧
    (∀ e : Endpoint, e.initialT = none → RenameInitialT.process_endpoint e = e) := by
  refine ⟨?_, ?_, ?_⟩
  · intro e h
    simp [RenameInitialT.process_endpoint, h]
  · intro e v h hv
    simp [RenameInitialT.process_endpoint, h, hv]
  · intro e h
    simp [RenameInitialT.process_endpoint, h]

/-- C9 (witness): the amended theorem at concrete endpoint paths — a
zero phase with no t key disappears, a non-zero phase of 3 becomes
t = 3, and a path without initialT is untouched. -/
theorem claim_c9_phase_sparsity_witness :
    ((RenameInitialT.process_endpoint
        { points := [⟨0, 0⟩], cycleSeconds := none, initialT := some 0,
          t := none }).initialT = none ∧
      (RenameInitialT.process_endpoint
        { points := [⟨0, 0⟩], cycleSeconds := none, initialT := some 0,
          t := none }).t = none) ∧
    ((RenameInitialT.process_endpoint
        { points := [⟨0, 0⟩], cycleSeconds := none, initialT := some 3,
          t := none }).initialT = none ∧
      (RenameInitialT.process_endpoint
        { points := [⟨0, 0⟩], cycleSeconds := none, initialT := some 3,
          t := none }).t = some 3) ∧
    RenameInitialT.process_endpoint
        { points := [⟨0, 0⟩], cycleSeconds := some 4, initialT := none,
          t := none } =
      { points := [⟨0, 0⟩], cycleSeconds := some 4, initialT := none, t := none } :=
  ⟨claim_c9_phase_sparsity.1 _ rfl,
   claim_c9_phase_sparsity.2.1 _ 3 rfl (by norm_num),
   claim_c9_phase_sparsity.2.2 _ rfl⟩

/-- C9 (counterexample): on a path carrying both initialT = 0.0 and a t
key, the rename deletes initialT but keeps the pre-existing t, so the
result does not have "neither initialT nor t present" as the claim
requires for the zero case. -/
theorem claim_c9_counterexample :
    c9Endpoint.initialT = some 0 ∧
    RenameInitialT.process_endpoint c9Endpoint =
      { points := [⟨0, 0⟩], cycleSeconds := none, initialT := none, t := some 5 } ∧
    (RenameInitialT.process_endpoint c9Endpoint).t ≠ none := by
  decide

/-- C7: converting a legacy sweeper with start (0,0), end (10,0),
sweepSeconds 3 yields an endpoint path with points [(0,0),(10,0)],
cycleSeconds 6 (the one-way time doubled), phase 0 and no t key, and a
ray with initialAngle = atan2 0 10 + π/2 = π/2 (the path direction
rotated by +90 degrees) and rotationSpeed 0. -/
theorem claim_c7_sweeper_conversion :
    ConvertLevels.convert_sweeper_to_ray
        { start := ⟨0, 0⟩, stop := ⟨10, 0⟩, sweepSeconds := 3 } =
      ConvertLevels.NewKind.ray
        { points := [⟨0, 0⟩, ⟨10, 0⟩], cycleSeconds := some 6,
          initialT := some 0, t := none }
        (Real.pi / 2) 0 ∧
    ConvertLevels.atan2 0 10 + Real.pi / 2 = Real.pi / 2 := by
  have hat : ConvertLevels.atan2 0 10 = 0 := by
    rw [ConvertLevels.atan2, if_pos (by norm_num : (0:ℝ) < 10)]
    simp [Real.arctan_zero]
  constructor
  · simp only [ConvertLevels.convert_sweeper_to_ray, ConvertLevels.NewKind.ray.injEq]
    norm_num [hat]
  · rw [hat]
    ring

/-- C8: converting a legacy rotor with center (5,5),
speedDegreesPerSecond 90 and initialAngleDegrees 180 yields a stationary
endpoint path with points [(5,5)] and no cycle (the script writes
cycleSeconds as null, embedded as `none`), and a ray with
initialAngle = π and rotationSpeed = π/2 — degrees times π divided
by 180. -/
theorem claim_c8_rotor_conversion :
    ConvertLevels.convert_rotor_to_ray
        { center := ⟨5, 5⟩, speedDegreesPerSecond := 90, initialAngleDegrees := 180 } =
      ConvertLevels.NewKind.ray
        { points := [⟨5, 5⟩], cycleSeconds := none, initialT := some 0, t := none }
        Real.pi (Real.pi / 2) := by
  simp only [ConvertLevels.convert_rotor_to_ray, ConvertLevels.NewKind.ray.injEq]
  refine ⟨trivial, ?_, ?_⟩ <;> push_cast <;> ring

theorem convert_laser_no_kind (o : ConvertLevels.OldLaser) (h : o.kind = none) :
    ConvertLevels.convert_laser o =
      Except.error (ConvertLevels.ConvErr.keyError "kind") := by
  simp [ConvertLevels.convert_laser, h]

theorem convert_laser_unknown (o : ConvertLevels.OldLaser) (k : ConvertLevels.KindRec)
    (hko : o.kind = some k) (h : ¬ k.known) :
    ConvertLevels.convert_laser o =
      Except.error (ConvertLevels.ConvErr.valueError
        ("Unknown laser kind: " ++ k.type)) := by
  have h1 : ¬ k.type = "sweeper" := fun hh => h (Or.inl hh)
  have h2 : ¬ k.type = "rotor" := fun hh => h (Or.inr (Or.inl hh))
  have h3 : ¬ k.type = "segment" := fun hh => h (Or.inr (Or.inr hh))
  simp [ConvertLevels.convert_laser, ConvertLevels.convert_kind, hko, h1, h2, h3,
    Except.map]

theorem convert_laser_ok_of_known (o : ConvertLevels.OldLaser)
    (k : ConvertLevels.KindRec) (hko : o.kind = some k)
    (hk : k.known) (hw : k.wfPayload) :
    ∃ n, ConvertLevels.convert_laser o = Except.ok n := by
  rcases hk with h | h | h
  · obtain ⟨d, hd⟩ := Option.isSome_iff_exists.mp (hw.1 h)
    have hok : ConvertLevels.convert_laser o =
        Except.ok { id := o.id, color := o.color, thickness := o.thickness,
                    enabled := o.enabled.getD true,
                    kind := ConvertLevels.convert_sweeper_to_ray d,
                    cadence := o.cadence } := by
      simp [ConvertLevels.convert_laser, ConvertLevels.convert_kind, hko, h, hd,
        Except.map]
    exact ⟨_, hok⟩
  · obtain ⟨d, hd⟩ := Option.isSome_iff_exists.mp (hw.2.1 h)
    have hok : ConvertLevels.convert_laser o =
        Except.ok { id := o.id, color := o.color, thickness := o.thickness,
                    enabled := o.enabled.getD true,
                    kind := ConvertLevels.convert_rotor_to_ray d,
                    cadence := o.cadence } := by
      simp [ConvertLevels.convert_laser, ConvertLevels.convert_kind, hko, h, hd,
        Except.map]
    exact ⟨_, hok⟩
  · obtain ⟨d, hd⟩ := Option.isSome_iff_exists.mp (hw.2.2 h)
    have hok : ConvertLevels.convert_laser o =
        Except.ok { id := o.id, color := o.color, thickness := o.thickness,
                    enabled := o.enabled.getD true,
                    kind := ConvertLevels.convert_segment_to_segment d,
                    cadence := o.cadence } := by
      simp [ConvertLevels.convert_laser, ConvertLevels.convert_kind, hko, h, hd,
        Except.map]
    exact ⟨_, hok⟩

theorem convert_lasers_unknown (ls : List ConvertLevels.OldLaser)
    (hwf : ∀ o ∈ ls, o.wf)
    (hex : ∃ o ∈ ls, ∃ k, o.kind = some k ∧ ¬ k.known) :
    ∃ o ∈ ls, ∃ k, o.kind = some k ∧ ¬ k.known ∧
      ConvertLevels.convert_lasers ls =
        Except.error (ConvertLevels.ConvErr.valueError
          ("Unknown laser kind: " ++ k.type)) := by
  induction ls with
  | nil => simp at hex
  | cons o os ih =>
    have hwo : o.wf := hwf o (List.mem_cons_self o os)
    rcases hko : o.kind with _ | k0
    · rw [ConvertLevels.OldLaser.wf, hko] at hwo
      exact hwo.elim
    · have hwp : k0.wfPayload := by
        rw [ConvertLevels.OldLaser.wf, hko] at hwo
        exact hwo
      by_cases hk : k0.known
      · obtain ⟨n, hn⟩ := convert_laser_ok_of_known o k0 hko hk hwp
        have hex' : ∃ p ∈ os, ∃ k, p.kind = some k ∧ ¬ k.known := by
          rcases hex with ⟨p, hp, k, hpk, hnk⟩
          rcases List.mem_cons.mp hp with rfl | hp'
          · rw [hko] at hpk
            injection hpk with he
            subst he
            exact absurd hk hnk
          · exact ⟨p, hp', k, hpk, hnk⟩
        obtain ⟨p, hp, k, hpk, hnk, herr⟩ :=
          ih (fun q hq => hwf q (List.mem_cons_of_mem _ hq)) hex'
        exact ⟨p, List.mem_cons_of_mem _ hp, k, hpk, hnk,
          by simp [ConvertLevels.convert_lasers, hn, herr]⟩
      · exact ⟨o, List.mem_cons_self o os, k0, hko, hk,
          by simp [ConvertLevels.convert_lasers, convert_laser_unknown o k0 hko hk]⟩

/-- C6: on any well-formed level document containing a laser whose
nested kind.type tag is not sweeper, rotor or segment, the legacy-kind
unification fails the whole file with the ValueError classification
error naming the (first) unknown tag, and the file is never opened for
writing, leaving the on-disk bytes untouched.  (Well-formed: each laser
carries a nested kind key and, when its tag is recognized, the matching
payload key, so no KeyError pre-empts the classification error.) -/
theorem claim_c6_unknown_kind_failure (lv : ConvertLevels.OldLevel)
    (ls : List ConvertLevels.OldLaser) (hls : lv.lasers = some ls)
    (hwf : ∀ o ∈ ls, o.wf)
    (hex : ∃ o ∈ ls, ∃ k, o.kind = some k ∧ ¬ k.known) :
    ∃ o ∈ ls, ∃ k, o.kind = some k ∧ ¬ k.known ∧
      ConvertLevels.convert_file_run lv =
        (Except.error (ConvertLevels.ConvErr.valueError
          ("Unknown laser kind: " ++ k.type)), false) := by
  obtain ⟨o, ho, k, hko, hnk, herr⟩ := convert_lasers_unknown ls hwf hex
  exact ⟨o, ho, k, hko, hnk, by
    simp [ConvertLevels.convert_file_run, ConvertLevels.convert_level_file, hls, herr]⟩

/-- C6 (witness): the theorem at the concrete one-laser document with
kind.type = "beam". -/
theorem claim_c6_unknown_kind_failure_witness :
    ∃ o ∈ [c6Laser], ∃ k, o.kind = some k ∧ ¬ k.known ∧
      ConvertLevels.convert_file_run c6Level =
        (Except.error (ConvertLevels.ConvErr.valueError
          ("Unknown laser kind: " ++ k.type)), false) :=
  claim_c6_unknown_kind_failure c6Level [c6Laser] rfl (by decide)
    ⟨c6Laser, by simp,
      { type := "beam", sweeper := none, rotor := none, segment := none },
      rfl, by decide⟩

/-- C10: the legacy-kind unification builds each converted laser from
exactly id, color, thickness, enabled (defaulting to true when the key
is absent), cadence (carried over exactly when present and non-null,
`none` embedding absent-or-null) and the decoded kind; every other field
of the legacy record is dropped — the conversion result does not depend
on the extra fields at all, and the new record's common fields are
exactly the listed projections of the old one. -/
theorem claim_c10_conversion_frame :
    (∀ (o : ConvertLevels.OldLaser) (ex : List (String × Value)),
      ConvertLevels.convert_laser { o with extra := ex } =
        ConvertLevels.convert_laser o) ∧
    (∀ (o : ConvertLevels.OldLaser) (n : ConvertLevels.NewLaser),
      ConvertLevels.convert_laser o = Except.ok n →
      n.id = o.id ∧ n.color = o.color ∧ n.thickness = o.thickness ∧
        n.enabled = o.enabled.getD true ∧ n.cadence = o.cadence) := by
  constructor
  · intro o ex
    rfl
  · intro o n h
    unfold ConvertLevels.convert_laser at h
    rcases hko : o.kind with _ | k
    · simp only [hko] at h
      exact Except.noConfusion h
    · simp only [hko] at h
      rcases hk : ConvertLevels.convert_kind k with e | nk <;> rw [hk] at h
      · simp [Except.map] at h
      · simp only [Except.map] at h
        injection h with h'
        subst h'
        exact ⟨rfl, rfl, rfl, rfl, rfl⟩

/-- C10 (witness): the theorem at the concrete laser — stripping the
extra field leaves the conversion result unchanged, and the converted
record's common fields are the old record's projections. -/
theorem claim_c10_conversion_frame_witness :
    ConvertLevels.convert_laser { c10Laser with extra := [] } =
      ConvertLevels.convert_laser c10Laser ∧
    (c10NewLaser.id = c10Laser.id ∧ c10NewLaser.color = c10Laser.color ∧
      c10NewLaser.thickness = c10Laser.thickness ∧
      c10NewLaser.enabled = c10Laser.enabled.getD true ∧
      c10NewLaser.cadence = c10Laser.cadence) :=
  ⟨claim_c10_conversion_frame.1 c10Laser [],
   claim_c10_conversion_frame.2 c10Laser c10NewLaser
     (by simp [ConvertLevels.convert_laser, ConvertLevels.convert_kind, c10Laser,
       c10NewLaser, Except.map])⟩

/-- C2 (amended): the migrate_levels runner processes every file in the
batch — one per-file result, in order, no failure aborting the loop —
and its exit status is non-zero iff at least one file failed; the
convert-levels runner instead aborts at the first failing document with
exit status 1, leaving the remaining files unprocessed (see the
counterexample). -/
theorem claim_c2_batch_error_handling :
    (∀ fs : List (Except String Level),
      (MigrateLevels.batch_results fs).length = fs.length ∧
      (MigrateLevels.exit_code fs ≠ 0 ↔
        ∃ f ∈ fs, MigrateLevels.file_ok f = false)) ∧
    (∀ (lv : ConvertLevels.OldLevel) (e : ConvertLevels.ConvErr)
        (rest : List ConvertLevels.OldLevel),
      ConvertLevels.convert_level_file lv = Except.error e →
      ConvertLevels.mainLoop (lv :: rest) = ([], 1)) := by
  constructor
  · intro fs
    constructor
    · simp [MigrateLevels.batch_results]
    · have hcount : MigrateLevels.exit_code fs ≠ 0 ↔
          0 < MigrateLevels.error_count fs := by
        unfold MigrateLevels.exit_code
        split_ifs with hc <;> omega
      rw [hcount]
      unfold MigrateLevels.error_count MigrateLevels.batch_results
      rw [List.count_pos_iff]
      simp [List.mem_map]
  · intro lv e rest h
    simp [ConvertLevels.mainLoop, h]

/-- C2 (witness): the amended theorem at a concrete two-file batch for
the migrate runner (one undecodable file, one good file) and at a
concrete failing head document for the convert runner. -/
theorem claim_c2_batch_error_handling_witness :
    ((MigrateLevels.batch_results
        [Except.error "bad json", Except.ok { lasers := none, buttons := none }]).length =
      [Except.error "bad json",
        Except.ok ({ lasers := none, buttons := none } : Level)].length ∧
      (MigrateLevels.exit_code
          [Except.error "bad json", Except.ok { lasers := none, buttons := none }] ≠ 0 ↔
        ∃ f ∈ [Except.error "bad json",
          Except.ok ({ lasers := none, buttons := none } : Level)],
          MigrateLevels.file_ok f = false)) ∧
    ConvertLevels.mainLoop (c2BadLevel :: [c2GoodLevel]) = ([], 1) :=
  ⟨claim_c2_batch_error_handling.1 _,
   claim_c2_batch_error_handling.2 c2BadLevel
     (ConvertLevels.ConvErr.valueError ("Unknown laser kind: " ++ "beam"))
     [c2GoodLevel]
     (by simp [ConvertLevels.convert_level_file, ConvertLevels.convert_lasers,
       c2BadLevel, c2BadLaser, convert_laser_unknown, ConvertLevels.convert_laser,
       ConvertLevels.convert_kind, Except.map])⟩

/-- C2 (counterexample): a convert-levels batch whose first document
fails (unknown kind "beam") and whose second document would convert
successfully — the runner exits 1 having written nothing: the second
document is never processed, refuting "a failing document does not
abort processing of the remaining documents" for this runner. -/
theorem claim_c2_counterexample :
    ConvertLevels.mainLoop [c2BadLevel, c2GoodLevel] = ([], 1) ∧
    ConvertLevels.convert_level_file c2GoodLevel =
      Except.ok { lasers := none, extra := [] } := by
  constructor
  · simp [ConvertLevels.mainLoop, ConvertLevels.convert_level_file,
      ConvertLevels.convert_lasers, c2BadLevel, c2BadLaser,
      ConvertLevels.convert_laser, ConvertLevels.convert_kind, Except.map]
  · rfl
